import Mathlib

set_option maxRecDepth 8000

/-
Verification of the NFC Forum Type 2 tag codec implemented in this
repository (Go sources: src/nfcwriter/main.go and src/unnamed/part_000).
Byte strings are modelled as `List Nat` (each element a byte value);
fallible operations return `Option`; the card transport is modelled as an
explicit oracle function passed to the operations that use it.
-/

/-- Byte string of the literal "http://" (ASCII). -/
def httpBytes : List Nat := [104, 116, 116, 112, 58, 47, 47]

/-- Byte string of the literal "https://" (ASCII). -/
def httpsBytes : List Nat := [104, 116, 116, 112, 115, 58, 47, 47]

/-- Go strings.HasPrefix on byte strings: hasPrefixBytes s p is true iff p
is a prefix of s. -/
def hasPrefixBytes : List Nat → List Nat → Bool
  | _, [] => true
  | [], _ :: _ => false
  | a :: s, b :: p => a == b && hasPrefixBytes s p

/-- Go strings.TrimPrefix on byte strings: drops p from the front of s when
p is a prefix of s, otherwise returns s unchanged. -/
def trimPrefixBytes (s p : List Nat) : List Nat :=
  if hasPrefixBytes s p then s.drop p.length else s

/-- URI payload built by buildURIRecord (src/nfcwriter/main.go lines 50-54):
trim a leading "http://", then a leading "https://", and tag the remainder
with identifier code 0x04. -/
def buildURIPayload (uri : List Nat) : List Nat :=
  4 :: trimPrefixBytes (trimPrefixBytes uri httpBytes) httpsBytes

/-- buildURIRecord (src/nfcwriter/main.go lines 49-65): single short NDEF
record, header 0xD1 (MB=1, ME=1, SR=1, TNF=1), type length 1, payload
length byte equal to byte(len(payload)) -- a Go byte conversion, hence the
mod 256 -- and type byte 0x55, the ASCII value of U. -/
def buildURIRecord (uri : List Nat) : List Nat :=
  [209, 1, (buildURIPayload uri).length % 256, 85] ++ buildURIPayload uri

/-- getURIPrefix (src/unnamed/part_000 lines 423-467): the 36-entry URI
compaction table, returning the ASCII bytes of the prefix for a code, and
the bytes of "Unknown prefix" for any code outside the table. -/
def uriPrefixOf (code : Nat) : List Nat :=
  match code with
  | 0 => []
  | 1 => [104, 116, 116, 112, 58, 47, 47, 119, 119, 119, 46]
  | 2 => [104, 116, 116, 112, 115, 58, 47, 47, 119, 119, 119, 46]
  | 3 => [104, 116, 116, 112, 58, 47, 47]
  | 4 => [104, 116, 116, 112, 115, 58, 47, 47]
  | 5 => [116, 101, 108, 58]
  | 6 => [109, 97, 105, 108, 116, 111, 58]
  | 7 => [102, 116, 112, 58, 47, 47, 97, 110, 111, 110, 121, 109, 111, 117,
          115, 58, 97, 110, 111, 110, 121, 109, 111, 117, 115, 64]
  | 8 => [102, 116, 112, 58, 47, 47, 102, 116, 112, 46]
  | 9 => [102, 116, 112, 115, 58, 47, 47]
  | 10 => [115, 102, 116, 112, 58, 47, 47]
  | 11 => [115, 109, 98, 58, 47, 47]
  | 12 => [110, 102, 115, 58, 47, 47]
  | 13 => [102, 116, 112, 58, 47, 47]
  | 14 => [100, 97, 118, 58, 47, 47]
  | 15 => [110, 101, 119, 115, 58]
  | 16 => [116, 101, 108, 110, 101, 116, 58, 47, 47]
  | 17 => [105, 109, 97, 112, 58]
  | 18 => [114, 116, 115, 112, 58, 47, 47]
  | 19 => [117, 114, 110, 58]
  | 20 => [112, 111, 112, 58]
  | 21 => [115, 105, 112, 58]
  | 22 => [115, 105, 112, 115, 58]
  | 23 => [116, 102, 116, 112, 58]
  | 24 => [98, 116, 115, 112, 112, 58, 47, 47]
  | 25 => [98, 116, 108, 50, 99, 97, 112, 58, 47, 47]
  | 26 => [98, 116, 103, 111, 101, 112, 58, 47, 47]
  | 27 => [116, 99, 112, 111, 98, 101, 120, 58, 47, 47]
  | 28 => [105, 114, 100, 97, 111, 98, 101, 120, 58, 47, 47]
  | 29 => [102, 105, 108, 101, 58, 47, 47]
  | 30 => [117, 114, 110, 58, 101, 112, 99, 58, 105, 100, 58]
  | 31 => [117, 114, 110, 58, 101, 112, 99, 58, 116, 97, 103, 58]
  | 32 => [117, 114, 110, 58, 101, 112, 99, 58, 112, 97, 116, 58]
  | 33 => [117, 114, 110, 58, 101, 112, 99, 58, 114, 97, 119, 58]
  | 34 => [117, 114, 110, 58, 101, 112, 99, 58]
  | 35 => [117, 114, 110, 58, 110, 102, 99, 58]
  | _ => [85, 110, 107, 110, 111, 119, 110, 32, 112, 114, 101, 102, 105, 120]

/-- parseURIPayload (src/unnamed/part_000 lines 343-366): empty payload is
an error (none); a payload with a suffix decodes to table-prefix ++ suffix;
a bare identifier decodes to the prefix alone when the prefix is nonempty,
and is an error otherwise. -/
def parseURIPayload (payload : List Nat) : Option (List Nat) :=
  match payload with
  | [] => none
  | c :: rest =>
    if rest.length > 0 then some (uriPrefixOf c ++ rest)
    else if uriPrefixOf c ≠ [] then some (uriPrefixOf c)
    else none

/-- Claim C1 (amended): for every URI beginning with "https://", decoding
the encoded URI payload yields the original URI. URIs beginning with
"http://" do not round-trip, since the encoder always tags code 0x04
(see the counterexample theorem). -/
theorem uri_roundtrip_https (rest : List Nat) :
    parseURIPayload (buildURIPayload (httpsBytes ++ rest)) =
      some (httpsBytes ++ rest) := by
  have h1 : trimPrefixBytes (httpsBytes ++ rest) httpBytes = httpsBytes ++ rest := by
    simp [trimPrefixBytes, hasPrefixBytes, httpsBytes, httpBytes]
  have h2 : trimPrefixBytes (httpsBytes ++ rest) httpsBytes = rest := by
    simp [trimPrefixBytes, hasPrefixBytes, httpsBytes]
  have hpay : buildURIPayload (httpsBytes ++ rest) = 4 :: rest := by
    rw [buildURIPayload, h1, h2]
  rw [hpay]
  cases rest with
  | nil => rfl
  | cons a t => simp [parseURIPayload, uriPrefixOf, httpsBytes]

/-- Claim C1 counterexample: the URI "http://a" (bytes below) encodes to
payload [0x04, 97], which decodes to "https://a", not "http://a": the
round trip claimed for URIs beginning with "http://" fails. -/
theorem uri_roundtrip_http_fails :
    parseURIPayload (buildURIPayload (httpBytes ++ [97])) ≠
      some (httpBytes ++ [97]) := by decide

/-- Claim C2 (amended): buildURIRecord never fails.  It always emits a short
record: length 4 + payload, header byte 0xD1 (so SR=1, MB=1, ME=1, TNF=1),
type-length 1, type byte 0x55, the payload appended after the 4 header
bytes, and a payload-length field equal to the payload length mod 256 --
which equals the payload length exactly whenever the payload is at most
255 bytes. -/
theorem buildURIRecord_short_record (uri : List Nat) :
    (buildURIRecord uri).length = 4 + (buildURIPayload uri).length ∧
    (buildURIRecord uri).getD 0 0 = 209 ∧
    (buildURIRecord uri).getD 1 0 = 1 ∧
    (buildURIRecord uri).getD 3 0 = 85 ∧
    (buildURIRecord uri).getD 2 0 = (buildURIPayload uri).length % 256 ∧
    (buildURIRecord uri).drop 4 = buildURIPayload uri ∧
    ((buildURIPayload uri).length ≤ 255 →
      (buildURIRecord uri).getD 2 0 = (buildURIPayload uri).length) := by
  refine ⟨?_, ?_, ?_, ?_, ?_, ?_, ?_⟩
  · simp [buildURIRecord]; omega
  · rfl
  · rfl
  · rfl
  · rfl
  · rfl
  · intro h
    have : (buildURIPayload uri).length % 256 = (buildURIPayload uri).length :=
      Nat.mod_eq_of_lt (by omega)
    simp [buildURIRecord, List.getD, this]

/-- Claim C2 witness: instance of the amended theorem at the empty URI. -/
theorem buildURIRecord_short_record_witness :
    (buildURIRecord []).getD 2 0 = (buildURIPayload []).length :=
  (buildURIRecord_short_record []).2.2.2.2.2.2 (by decide)

/-- Claim C2 counterexample: a 256-byte URI (payload 257 bytes, above the
claimed 255-byte limit) is still encoded -- the claim says encoding fails
and produces no output.  The emitted record has 261 bytes and its
payload-length field has silently wrapped to 257 mod 256 = 1. -/
theorem buildURIRecord_no_size_check :
    (buildURIPayload (List.replicate 256 97)).length = 257 ∧
    (buildURIRecord (List.replicate 256 97)).length = 261 ∧
    (buildURIRecord (List.replicate 256 97)).getD 2 0 = 1 := by decide

/-- TLV entries as printed by analyzeNDEFStructure (src/unnamed/part_000
lines 101-187): one constructor per distinct diagnostic shape.
ndefMissingLen is the "Missing length byte" diagnostic at a trailing 0x03;
ndefTruncated carries the value bytes actually available when the declared
NDEF length overruns the buffer (the only truncation diagnostic the
function has); proprietary carries the declared length only, because the
source never extracts proprietary value bytes; proprietaryNoLen is a
proprietary type byte with no following length byte. -/
inductive TLVEntry where
  | null : TLVEntry
  | ndef (value : List Nat) : TLVEntry
  | ndefMissingLen : TLVEntry
  | ndefTruncated (avail : List Nat) : TLVEntry
  | terminator : TLVEntry
  | proprietary (len : Nat) : TLVEntry
  | proprietaryNoLen : TLVEntry
  | invalid (t : Nat) : TLVEntry
deriving DecidableEq

/-- TLV scan loop of analyzeNDEFStructure (src/unnamed/part_000 lines
114-182), with the running offset into the buffer replaced by the list of
bytes not yet consumed; every branch mirrors one case of the source's
switch.  0x00 consumes 1 byte; 0x03 reads a length byte (continuing past a
missing one, emitting an empty entry and continuing for length 0, and for
a length overrunning the buffer emitting the available bytes and
returning); 0xFE returns; 0x01-0xFD reads a length byte when present and
skips that many bytes with no bounds check, exactly as the source's
offset += 2 + length; anything else consumes 1 byte. -/
def analyzeTLVList : List Nat → List TLVEntry
  | [] => []
  | t :: rest =>
    if t = 0 then .null :: analyzeTLVList rest
    else if t = 3 then
      match rest with
      | [] => [.ndefMissingLen]
      | len :: rest2 =>
        if len = 0 then .ndef [] :: analyzeTLVList rest2
        else if rest2.length < len then [.ndefTruncated rest2]
        else .ndef (rest2.take len) :: analyzeTLVList (rest2.drop len)
    else if t = 254 then [.terminator]
    else if 1 ≤ t ∧ t ≤ 253 then
      match rest with
      | [] => [.proprietaryNoLen]
      | len :: rest2 => .proprietary len :: analyzeTLVList (rest2.drop len)
    else .invalid t :: analyzeTLVList rest
termination_by data => data.length
decreasing_by
  all_goals simp [List.length_drop]
  all_goals omega

/-- Entry point of the TLV analysis: analyzeNDEFStructure starts its scan
at offset 0 of the data area (the startPage argument of the source only
affects the printed page numbers, not the parse). -/
def analyzeNDEFStructure (data : List Nat) : List TLVEntry :=
  analyzeTLVList data

/-- Claim C4 counterexample: for the buffer [0x01, 0x05, 0xAA] the
proprietary TLV declares 5 value bytes while only 1 is available.  The
claim says a malformed-TLV diagnostic carrying [0xAA] is emitted; the
decoder instead emits a plain Proprietary entry, no diagnostic at all. -/
theorem proprietary_truncation_no_diagnostic :
    analyzeTLVList [1, 5, 170] = [.proprietary 5] ∧
    TLVEntry.ndefTruncated [170] ∉ analyzeTLVList [1, 5, 170] := by
  have h : analyzeTLVList [1, 5, 170] = [.proprietary 5] := by
    simp [analyzeTLVList]
  exact ⟨h, by rw [h]; decide⟩

/-- Claim C4 (amended): a type byte in 0x01-0xFD other than 0x03 is decoded
as Proprietary with the same length-prefixed shape as the NDEF case, but
with a different truncation policy: when the declared length exceeds the
remaining buffer the decoder emits the Proprietary entry (carrying no
value bytes), silently advances past the end of the buffer, and the entry
sequence ends with no malformed-TLV diagnostic. -/
theorem proprietary_truncated_entries (t len : Nat) (rest : List Nat)
    (h1 : 1 ≤ t) (h2 : t ≤ 253) (h3 : t ≠ 3) (h4 : rest.length < len) :
    analyzeTLVList (t :: len :: rest) = [.proprietary len] := by
  have ht0 : ¬ t = 0 := by omega
  have ht254 : ¬ t = 254 := by omega
  rw [analyzeTLVList]
  rw [if_neg ht0, if_neg h3, if_neg ht254, if_pos ⟨h1, h2⟩]
  have hdrop : rest.drop len = [] := List.drop_eq_nil_of_le (by omega)
  rw [hdrop, analyzeTLVList]

/-- Claim C4 witness: instance of the amended theorem at the
counterexample's buffer. -/
theorem proprietary_truncated_entries_witness :
    analyzeTLVList [2, 5, 170] = [.proprietary 5] :=
  proprietary_truncated_entries 2 5 [170] (by decide) (by decide) (by decide)
    (by decide)

/-- Claim C10: reading a 0x03 type byte whose length byte is 0x00 emits an
empty NDEF-message entry, consumes exactly those 2 bytes, and continues
decoding the remaining entries from that position rather than stopping. -/
theorem ndef_tlv_empty_continues (rest : List Nat) :
    analyzeTLVList (3 :: 0 :: rest) = .ndef [] :: analyzeTLVList rest := by
  rw [analyzeTLVList]
  norm_num

/-- Claim C6: decoding [0x03, 0x05, b1..b5, 0xFE, 0x99] yields exactly one
NDEF-message entry, with value [b1..b5], followed by the terminator entry
at which the scan stops, so the trailing 0x99 byte yields no entry. -/
theorem tlv_single_ndef_then_terminator (b1 b2 b3 b4 b5 : Nat) :
    analyzeNDEFStructure [3, 5, b1, b2, b3, b4, b5, 254, 153] =
      [.ndef [b1, b2, b3, b4, b5], .terminator] := by
  simp [analyzeNDEFStructure, analyzeTLVList]

/-- The TLV-construction portion of writeNDEFToType2 (src/nfcwriter/main.go
lines 102-116): fail when the message exceeds 254 bytes; otherwise emit
0x03, the length byte, the message, the 0xFE terminator, and zero padding
computed as (4 - len(tlv) % 4) % 4 trailing zero bytes. -/
def encodeTLV (ndef : List Nat) : Option (List Nat) :=
  if 254 < ndef.length then none
  else
    some (((3 :: ndef.length % 256 :: ndef) ++ [254]) ++
      List.replicate ((4 - ((3 :: ndef.length % 256 :: ndef) ++ [254]).length % 4) % 4) 0)

/-- Claim C5: TLV encoding fails for every message longer than 254 bytes
(so in particular at length 255); for a message of at most 254 bytes it
produces exactly 0x03, the length byte, the message, 0xFE, then zero bytes
padding the total length up to the next multiple of 4. -/
theorem encodeTLV_spec (m : List Nat) :
    (254 < m.length → encodeTLV m = none) ∧
    (m.length ≤ 254 →
      encodeTLV m = some ((3 :: m.length :: m ++ [254]) ++
        List.replicate ((4 - (m.length + 3) % 4) % 4) 0) ∧
      (m.length + 3 + (4 - (m.length + 3) % 4) % 4) % 4 = 0) := by
  constructor
  · intro h
    rw [encodeTLV, if_pos h]
  · intro h
    have hmod : m.length % 256 = m.length := Nat.mod_eq_of_lt (by omega)
    have hlen : ((3 :: m.length % 256 :: m) ++ [254]).length = m.length + 3 := by
      simp
    constructor
    · rw [encodeTLV, if_neg (by omega), hlen, hmod]
    · omega

/-- Claim C5 witness: the theorem applied at a 255-byte message (encoding
fails) and at the one-byte message [9] (encoding succeeds, padded to 8
bytes). -/
theorem encodeTLV_spec_witness :
    encodeTLV (List.replicate 255 7) = none ∧
    encodeTLV [9] = some ((3 :: 1 :: [9] ++ [254]) ++
      List.replicate ((4 - (1 + 3) % 4) % 4) 0) :=
  ⟨(encodeTLV_spec (List.replicate 255 7)).1 (by simp),
   ((encodeTLV_spec [9]).2 (by decide)).1⟩

/-- NDEF record fields as printed by parseNDEFMessage (src/unnamed/part_000
lines 190-340): the five header flags, the 3-bit TNF, and the type, id and
payload byte strings. -/
structure NDEFRecord where
  mb : Bool
  me : Bool
  cf : Bool
  sr : Bool
  il : Bool
  tnf : Nat
  typ : List Nat
  id : List Nat
  payload : List Nat
deriving DecidableEq

/-- Outcome of parsing one record inside parseNDEFMessage's loop: fail is
any of the source's error breaks before a payload is reached (no record
printed in full); stop is a record after which the loop stops (ME set, or
a payload declared longer than the remaining buffer, which the source
reports with the bytes actually present and then breaks); cont is a
complete record with the loop continuing on the remaining bytes. -/
inductive RecStep where
  | fail : RecStep
  | stop (r : NDEFRecord) : RecStep
  | cont (r : NDEFRecord) (rest : List Nat) : RecStep

/-- One iteration of parseNDEFMessage's loop (src/unnamed/part_000 lines
200-339), with the running offset replaced by the unconsumed byte list:
header byte (flags and TNF), type-length byte, payload length (1 byte when
SR else 4 big-endian bytes), id-length byte when IL, type bytes, id bytes,
payload bytes, each with the bounds checks and error breaks of the
source. -/
def parseOneRecord (data : List Nat) : RecStep :=
  match data with
  | [] => .fail
  | header :: r1 =>
    let mb := (header &&& 128) != 0
    let me := (header &&& 64) != 0
    let cf := (header &&& 32) != 0
    let sr := (header &&& 16) != 0
    let il := (header &&& 8) != 0
    let tnf := header &&& 7
    match r1 with
    | [] => .fail
    | typeLength :: r2 =>
      let plStep : Option (Nat × List Nat) :=
        if sr then
          match r2 with
          | [] => none
          | pl :: r3 => some (pl, r3)
        else
          match r2 with
          | b0 :: b1 :: b2 :: b3 :: r3 =>
            some ((b0 <<< 24) ||| (b1 <<< 16) ||| (b2 <<< 8) ||| b3, r3)
          | _ => none
      match plStep with
      | none => .fail
      | some (payloadLength, r3) =>
        let idStep : Option (Nat × List Nat) :=
          if il then
            match r3 with
            | [] => none
            | idl :: r4 => some (idl, r4)
          else some (0, r3)
        match idStep with
        | none => .fail
        | some (idLength, r4) =>
          if 0 < typeLength ∧ r4.length < typeLength then .fail
          else
            let typ := r4.take typeLength
            let r5 := r4.drop typeLength
            if il = true ∧ 0 < idLength ∧ r5.length < idLength then .fail
            else
              let idBytes := if il = true ∧ 0 < idLength then r5.take idLength else []
              let r6 := if il = true ∧ 0 < idLength then r5.drop idLength else r5
              if 0 < payloadLength then
                if r6.length < payloadLength then
                  .stop ⟨mb, me, cf, sr, il, tnf, typ, idBytes, r6⟩
                else
                  let rec0 : NDEFRecord :=
                    ⟨mb, me, cf, sr, il, tnf, typ, idBytes, r6.take payloadLength⟩
                  if me then .stop rec0 else .cont rec0 (r6.drop payloadLength)
              else
                let rec0 : NDEFRecord := ⟨mb, me, cf, sr, il, tnf, typ, idBytes, []⟩
                if me then .stop rec0 else .cont rec0 r6

/-- The record loop of parseNDEFMessage, run with fuel: each complete
record consumes at least 3 bytes, so fuel equal to the buffer length never
runs out before the buffer does. -/
def parseNDEFLoop : Nat → List Nat → List NDEFRecord
  | 0, _ => []
  | fuel + 1, data =>
    match parseOneRecord data with
    | .fail => []
    | .stop r => [r]
    | .cont r rest => r :: parseNDEFLoop fuel rest

/-- parseNDEFMessage (src/unnamed/part_000 lines 190-340) as a structured
decoder: the list of records whose fields the source prints, in order. -/
def parseNDEFMessage (data : List Nat) : List NDEFRecord :=
  parseNDEFLoop (data.length + 1) data

/-- The byte string of claim C3: [0xD1, 0x01, 0x0B, 0x55, 0x04] followed by
the ASCII bytes of "example.com". -/
def exampleMsgC3 : List Nat :=
  [209, 1, 11, 85, 4, 101, 120, 97, 109, 112, 108, 101, 46, 99, 111, 109]

/-- Claim C3 counterexample: decoding the claimed message yields one record
whose payload is [0x04] ++ "example.co" -- the declared payload length 0x0B
covers the identifier byte plus only ten suffix bytes -- and that payload
decodes via the URI codec to "https://example.co", not the claimed
"https://example.com" (byte strings spelled out below). -/
theorem decode_exampleMsgC3_not_example_com :
    (parseNDEFMessage exampleMsgC3).map NDEFRecord.payload =
      [[4, 101, 120, 97, 109, 112, 108, 101, 46, 99, 111]] ∧
    parseURIPayload [4, 101, 120, 97, 109, 112, 108, 101, 46, 99, 111] ≠
      some [104, 116, 116, 112, 115, 58, 47, 47, 101, 120, 97, 109, 112,
            108, 101, 46, 99, 111, 109] := by decide

/-- Claim C3 (amended): decoding the message [0xD1, 0x01, 0x0B, 0x55, 0x04]
++ "example.com" yields exactly one record with TNF=1, type "U" (the single
byte 0x55), MB=ME=1 (and CF=0, SR=1, IL=0, no id), whose payload decodes
via the URI codec to "https://example.co": the 0x0B length byte leaves the
final letter of ".com" outside the payload. -/
theorem decode_exampleMsgC3 :
    parseNDEFMessage exampleMsgC3 =
      [⟨true, true, false, true, false, 1, [85], [],
        [4, 101, 120, 97, 109, 112, 108, 101, 46, 99, 111]⟩] ∧
    parseURIPayload [4, 101, 120, 97, 109, 112, 108, 101, 46, 99, 111] =
      some [104, 116, 116, 112, 115, 58, 47, 47, 101, 120, 97, 109, 112,
            108, 101, 46, 99, 111] := by decide

/-- identifyTagType (src/unnamed/part_000 lines 75-99), with the card
replaced by a read oracle mapping a page number to the page bytes on
success and none on failure: read page 0; on failure "unknown"; on a
nonempty result whose first byte is not 0x04, "Type2-compatible"; on
first byte 0x04, probe page 0x2C (failure: "NTAG213") and then page 0x86
(failure: "NTAG215", success: "NTAG216").  A successful empty page-0 read
falls through to the source's final return "unknown". -/
def identifyTagType (rd : Nat → Option (List Nat)) : String :=
  match rd 0 with
  | none => "unknown"
  | some page0 =>
    if 1 ≤ page0.length then
      if page0.getD 0 0 = 4 then
        match rd 44 with
        | none => "NTAG213"
        | some _ =>
          match rd 134 with
          | none => "NTAG215"
          | some _ => "NTAG216"
      else "Type2-compatible"
    else "unknown"

/-- Claim C7: the classification table of the topology detector -- failed
page-0 read: unknown; manufacturer byte not 0x04: generic Type 2
("Type2-compatible" in the source); byte 0x04 with a failed read at page
0x2C (44): NTAG213; page 0x2C readable but page 0x86 (134) not: NTAG215;
both readable: NTAG216 -- and, final conjunct, the result depends only on
the reads of pages 0, 0x2C and 0x86, so no other page is probed for the
classification. -/
theorem identifyTagType_spec (rd : Nat → Option (List Nat)) :
    (rd 0 = none → identifyTagType rd = "unknown") ∧
    (∀ b rest, rd 0 = some (b :: rest) → b ≠ 4 →
      identifyTagType rd = "Type2-compatible") ∧
    (∀ rest, rd 0 = some (4 :: rest) → rd 44 = none →
      identifyTagType rd = "NTAG213") ∧
    (∀ rest d, rd 0 = some (4 :: rest) → rd 44 = some d → rd 134 = none →
      identifyTagType rd = "NTAG215") ∧
    (∀ rest d d2, rd 0 = some (4 :: rest) → rd 44 = some d →
      rd 134 = some d2 → identifyTagType rd = "NTAG216") ∧
    (∀ rd2, rd 0 = rd2 0 → rd 44 = rd2 44 → rd 134 = rd2 134 →
      identifyTagType rd = identifyTagType rd2) := by
  refine ⟨?_, ?_, ?_, ?_, ?_, ?_⟩
  · intro h
    rw [identifyTagType, h]
  · intro b rest h hb
    rw [identifyTagType, h]
    simp [hb]
  · intro rest h h44
    rw [identifyTagType, h, h44]
    simp
  · intro rest d h h44 h134
    rw [identifyTagType, h, h44, h134]
    simp
  · intro rest d d2 h h44 h134
    rw [identifyTagType, h, h44, h134]
    simp
  · intro rd2 h0 h44 h134
    rw [identifyTagType, identifyTagType, h0, h44, h134]

/-- Claim C7 witness: manufacturer byte 0x04, a successful read at page
0x2C and a failed read at page 0x86 classify as NTAG215, the scenario the
specification singles out. -/
theorem identifyTagType_spec_witness :
    identifyTagType (fun n => if n = 0 then some [4, 1, 2, 3]
      else if n = 44 then some [0, 0, 0, 0] else none) = "NTAG215" :=
  (identifyTagType_spec _).2.2.2.1 [1, 2, 3] [0, 0, 0, 0] rfl rfl rfl

/-- Static lock decode inside analyzeLockBytes (src/unnamed/part_000 lines
480-492): for each bit index i in 0..15, test bit i of lock0 for i < 8 and
bit i-8 of lock1 otherwise, and report page 3+i as locked when the bit is
set. -/
def staticLockedPages (lock0 lock1 : Nat) : List Nat :=
  (List.range 16).filterMap fun i =>
    if (if i < 8 then lock0 >>> i else lock1 >>> (i - 8)) % 2 = 1
    then some (3 + i) else none

/-- Claim C8: for byte values lock0 and lock1, page 3+i is reported locked
exactly when bit i of the 16-bit little-endian field lock0 + 256 * lock1
is set, for every i in 0..15; and in particular lock0 = 0x01, lock1 = 0x00
reports exactly page 3 as locked. -/
theorem staticLockedPages_spec (lock0 lock1 : Nat)
    (h0 : lock0 < 256) (h1 : lock1 < 256) :
    (∀ i, i < 16 → ((3 + i) ∈ staticLockedPages lock0 lock1 ↔
      Nat.testBit (lock0 + 256 * lock1) i = true)) ∧
    staticLockedPages 1 0 = [3] := by
  constructor
  · intro i hi
    have hmem : (3 + i) ∈ staticLockedPages lock0 lock1 ↔
        (if i < 8 then lock0 >>> i else lock1 >>> (i - 8)) % 2 = 1 := by
      rw [staticLockedPages, List.mem_filterMap]
      constructor
      · rintro ⟨j, hj, hfj⟩
        rw [List.mem_range] at hj
        by_cases hcond : (if j < 8 then lock0 >>> j else lock1 >>> (j - 8)) % 2 = 1
        · rw [if_pos hcond] at hfj
          have hji : j = i := by
            have := Option.some.inj hfj
            omega
          rw [hji] at hcond
          exact hcond
        · rw [if_neg hcond] at hfj
          exact absurd hfj (by simp)
      · intro hcond
        exact ⟨i, List.mem_range.mpr hi, by rw [if_pos hcond]⟩
    rw [hmem, Nat.testBit_to_div_mod, decide_eq_true_eq]
    simp only [Nat.shiftRight_eq_div_pow]
    interval_cases i <;> norm_num <;> omega
  · decide

/-- Claim C8 witness: instance of the theorem at lock0 = 1, lock1 = 0 and
bit index 0. -/
theorem staticLockedPages_spec_witness :
    ((3 + 0) ∈ staticLockedPages 1 0 ↔ Nat.testBit (1 + 256 * 0) 0 = true) ∧
    staticLockedPages 1 0 = [3] :=
  ⟨(staticLockedPages_spec 1 0 (by decide) (by decide)).1 0 (by decide),
   (staticLockedPages_spec 1 0 (by decide) (by decide)).2⟩

/-- formatType2Tag (src/nfcwriter/main.go lines 69-99), with the card
replaced by a write oracle returning success or failure for a page write;
the result is the ordered list of writes actually issued and the overall
success flag.  The source issues writePage calls for the zeroed lock bytes
at page 2, the capability container 0xE1 0x10 0x3F 0x00 at page 3, and the
empty TLV area 0x00 0x00 0x00 0xFE at page 4, returning early at the first
failure. -/
def formatType2Tag (w : Nat → List Nat → Bool) : List (Nat × List Nat) × Bool :=
  if w 2 [0, 0, 0, 0] then
    if w 3 [225, 16, 63, 0] then
      if w 4 [0, 0, 0, 254] then
        ([(2, [0, 0, 0, 0]), (3, [225, 16, 63, 0]), (4, [0, 0, 0, 254])], true)
      else
        ([(2, [0, 0, 0, 0]), (3, [225, 16, 63, 0]), (4, [0, 0, 0, 254])], false)
    else ([(2, [0, 0, 0, 0]), (3, [225, 16, 63, 0])], false)
  else ([(2, [0, 0, 0, 0])], false)

/-- Claim C9: the formatter issues exactly the three writes lock bytes at
page 2, then CC at page 3, then empty TLV at page 4, in that order; after
a failed write no further write is issued, and the writes already issued
stay issued -- each failure case's trace is the prefix of the three-step
plan ending at the failing write, with no compensating writes. -/
theorem formatType2Tag_plan (w : Nat → List Nat → Bool) :
    (w 2 [0, 0, 0, 0] = false →
      formatType2Tag w = ([(2, [0, 0, 0, 0])], false)) ∧
    (w 2 [0, 0, 0, 0] = true → w 3 [225, 16, 63, 0] = false →
      formatType2Tag w = ([(2, [0, 0, 0, 0]), (3, [225, 16, 63, 0])], false)) ∧
    (w 2 [0, 0, 0, 0] = true → w 3 [225, 16, 63, 0] = true →
      w 4 [0, 0, 0, 254] = false →
      formatType2Tag w = ([(2, [0, 0, 0, 0]), (3, [225, 16, 63, 0]),
        (4, [0, 0, 0, 254])], false)) ∧
    (w 2 [0, 0, 0, 0] = true → w 3 [225, 16, 63, 0] = true →
      w 4 [0, 0, 0, 254] = true →
      formatType2Tag w = ([(2, [0, 0, 0, 0]), (3, [225, 16, 63, 0]),
        (4, [0, 0, 0, 254])], true)) := by
  refine ⟨?_, ?_, ?_, ?_⟩ <;> intros <;> simp [formatType2Tag, *]

/-- Claim C9 witness: with an always-succeeding page store the formatter
issues the full three-write plan and reports success. -/
theorem formatType2Tag_plan_witness :
    formatType2Tag (fun _ _ => true) =
      ([(2, [0, 0, 0, 0]), (3, [225, 16, 63, 0]), (4, [0, 0, 0, 254])], true) :=
  (formatType2Tag_plan (fun _ _ => true)).2.2.2 rfl rfl rfl
